import Mathlib

/-!
Shallow embedding of the candidate matching, ranking and export core of
`base/utils.py` from the Kunji Skill Analyzer repository, together with
proofs about it.

The embedded functions are `match_candidates_from_google_sheet`
(utils.py lines 291-375), `match_candidates_with_jd` (lines 381-460) and
the column-reordering step of `export_matched_candidates` (lines 463-489).
Python strings are modelled as Lean `String`, candidate spreadsheet rows as
a record of optional cells, pandas data frames as a list of column names
plus a list of rows, floats as exact rationals (`ℚ`), and Python's
`round(x, 1)` as round-half-to-even at one decimal place.
-/

namespace SkillAnalyzer

/-- Character-level test that `sub` is a leading segment of `l`
(the recursion underlying Python's substring test). -/
def listPrefixOf : List Char → List Char → Bool
  | [], _ => true
  | _ :: _, [] => false
  | a :: as, b :: bs => a = b && listPrefixOf as bs

/-- Python's `sub in l` on strings viewed as character lists: `sub` occurs
contiguously somewhere in `l`.  The empty list occurs in everything. -/
def containsSub (sub : List Char) : List Char → Bool
  | [] => sub.isEmpty
  | b :: bs => listPrefixOf sub (b :: bs) || containsSub sub bs

/-- Python's `str.split(',')`: splitting `""` gives `[""]`, splitting `","`
gives `["", ""]`, and so on. -/
def splitOnComma : List Char → List (List Char)
  | [] => [[]]
  | c :: cs =>
    if c = ',' then [] :: splitOnComma cs
    else
      match splitOnComma cs with
      | t :: ts => (c :: t) :: ts
      | [] => [[c]]

/-- Python's `str.strip()`: drop leading and trailing whitespace. -/
def trimChars (l : List Char) : List Char :=
  ((l.dropWhile Char.isWhitespace).reverse.dropWhile Char.isWhitespace).reverse

/-- Python's `s.lower()`. -/
def lowerStr (s : String) : String :=
  String.mk (s.data.map Char.toLower)

/-- Python's `s.lower().strip()`, the normalization applied to every
required skill and every candidate skill token (utils.py lines 323, 332). -/
def normStr (s : String) : String :=
  String.mk (trimChars (s.data.map Char.toLower))

/-- Python's `s.strip()`, applied to data-frame column names
(utils.py line 312). -/
def stripName (s : String) : String :=
  String.mk (trimChars s.data)

/-- Tokenization of a candidate's raw skills text, utils.py line 332:
`[s.lower().strip() for s in candidate_skills_str.split(',')]`. -/
def tokens (s : String) : List String :=
  ((splitOnComma s.data).map String.mk).map normStr

/-- The bidirectional substring test of utils.py line 339:
`req_skill in cand_skill or cand_skill in req_skill`. -/
def skillMatch (req cand : String) : Bool :=
  containsSub req.data cand.data || containsSub cand.data req.data

/-- Normalization of the required skill list, utils.py line 323:
`[skill.lower().strip() for skill in required_skills]`. -/
def requiredLower (required_skills : List String) : List String :=
  required_skills.map normStr

/-- Round a rational to the nearest integer, ties to the even integer,
mirroring Python 3's `round` on exactly representable values.  Stated over
the numerator and denominator so that it evaluates by kernel reduction;
`rhe_le` and `rhe_nonneg` below give the bounds the proofs need. -/
def rhe (x : ℚ) : ℤ :=
  let n := Rat.floor x
  let r := 2 * (x.num - n * x.den)
  if r < (x.den : ℤ) then n
  else if (x.den : ℤ) < r then n + 1
  else if n % 2 = 0 then n else n + 1

/-- Python's `round(x, 1)` (utils.py lines 362, 447): round to one decimal
place.  `round1_eq` below shows this equals `(rhe (10 * x) : ℚ) / 10`. -/
def round1 (x : ℚ) : ℚ :=
  mkRat (rhe (mkRat (10 * x.num) x.den)) 10

/-- The match percentage before rounding, utils.py line 344:
`(len(matched_skills) / len(required_skills_lower)) * 100` when the
required list is non-empty, and `0` otherwise.  Stated via `mkRat` so that
it evaluates by kernel reduction; `rawPct_eq` below recovers the source
formula. -/
def rawPct (matched total : ℕ) : ℚ :=
  if total = 0 then 0 else mkRat (100 * (matched : ℤ)) total

/-- One spreadsheet row of candidate data, after the cells that the code
reads have been extracted: an absent cell is `none` (the code substitutes
the sentinel `"N/A"` via `row.get(..., 'N/A')`), and `skills` is the
stringified `Skills` cell, `str(row.get('Skills', ''))` (utils.py lines
326, 411), so a pandas missing value appears as the literal text `"nan"`. -/
structure CandidateRow where
  name : Option String := none
  email : Option String := none
  contact : Option String := none
  location : Option String := none
  current_company : Option String := none
  designation : Option String := none
  experience : Option String := none
  linkedin : Option String := none
  qualification : Option String := none
  cv_link : Option String := none
  status : Option String := none
  skills : String
deriving DecidableEq, Repr

/-- The per-candidate result dictionary built at utils.py lines 348-365
(and identically at lines 433-450): every key is always present. -/
structure MatchResult where
  name : String
  email : String
  contact : String
  location : String
  current_company : String
  designation : String
  experience : String
  linkedin : String
  qualification : String
  skills : String
  cv_link : String
  status : String
  matched_skills : List String
  match_percentage : ℚ
  matched_skills_count : ℕ
  total_required_skills : ℕ
deriving DecidableEq, Repr

/-- Build the `candidate_data` dictionary of utils.py lines 348-365: each
absent cell becomes `"N/A"`, the matched skills and the rounded percentage
are stored together with the two counts. -/
def mkResult (row : CandidateRow) (matched : List String) (pct : ℚ)
    (total : ℕ) : MatchResult where
  name := row.name.getD "N/A"
  email := row.email.getD "N/A"
  contact := row.contact.getD "N/A"
  location := row.location.getD "N/A"
  current_company := row.current_company.getD "N/A"
  designation := row.designation.getD "N/A"
  experience := row.experience.getD "N/A"
  linkedin := row.linkedin.getD "N/A"
  qualification := row.qualification.getD "N/A"
  skills := row.skills
  cv_link := row.cv_link.getD "N/A"
  status := row.status.getD "N/A"
  matched_skills := matched
  match_percentage := round1 pct
  matched_skills_count := matched.length
  total_required_skills := total

/-- The nested matching loop of utils.py lines 335-341: for every required
skill (in order), scan the candidate tokens in order and append the
required skill on the first token satisfying `skillMatch`, then `break`.
The appended element does not depend on which token matched, so the loop
equals a filter by `List.find?` over the tokens. -/
def matchedSkills (reqLower toks : List String) : List String :=
  reqLower.filter fun r => (toks.find? fun c => skillMatch r c).isSome

/-- The skip test of utils.py line 328:
`if not candidate_skills_str or candidate_skills_str == 'nan'`. -/
def skipSheet (s : String) : Bool :=
  s = "" || s = "nan"

/-- The skip test of utils.py line 413:
`if not candidate_skills_str or candidate_skills_str.lower() == 'nan'`. -/
def skipExcel (s : String) : Bool :=
  s = "" || lowerStr s = "nan"

/-- The per-row body of the matching loop, utils.py lines 325-366: skip
rows with no usable skills text, tokenize, match, compute the percentage
and keep the row only when the percentage reaches the threshold. -/
def processRow (skip : String → Bool) (reqLower : List String) (t : ℚ)
    (row : CandidateRow) : Option MatchResult :=
  if skip row.skills then none
  else
    let toks := tokens row.skills
    let matched := matchedSkills reqLower toks
    let pct := rawPct matched.length reqLower.length
    if t ≤ pct then some (mkResult row matched pct reqLower.length) else none

/-- The list `matched_candidates` accumulated by the row loop before
sorting (utils.py lines 320-366). -/
def includedResults (skip : String → Bool) (reqLower : List String) (t : ℚ)
    (rows : List CandidateRow) : List MatchResult :=
  rows.filterMap (processRow skip reqLower t)

/-- The comparison used by the final sort, utils.py line 369:
`matched_candidates.sort(key=lambda x: x['match_percentage'], reverse=True)`
keeps `a` before `b` exactly when `b`'s stored percentage does not exceed
`a`'s; Python's sort is stable, which `List.insertionSort` models. -/
def pctGe (a b : MatchResult) : Prop :=
  b.match_percentage ≤ a.match_percentage

instance : DecidableRel pctGe := fun a b =>
  inferInstanceAs (Decidable (b.match_percentage ≤ a.match_percentage))

instance : IsTotal MatchResult pctGe :=
  ⟨fun a b => le_total b.match_percentage a.match_percentage⟩

instance : IsTrans MatchResult pctGe :=
  ⟨fun _ _ _ h1 h2 => le_trans h2 h1⟩

/-- Score every row, keep the rows at or above the threshold and sort the
kept results by stored percentage, highest first, with Python's stable
sort (utils.py lines 320-371). -/
def rankRows (skip : String → Bool) (required_skills : List String) (t : ℚ)
    (rows : List CandidateRow) : List MatchResult :=
  List.insertionSort pctGe (includedResults skip (requiredLower required_skills) t rows)

/-- The state of the Google-Sheet data source as seen by
`match_candidates_from_google_sheet`: either fetching failed (the helper
`fetch_google_sheet_data` swallowed the exception and returned an empty
data frame, utils.py lines 286-288), or a data frame with the given column
names and rows was obtained. -/
inductive SheetSource where
  | unavailable
  | table (cols : List String) (rows : List CandidateRow)

/-- The state of the local Excel data source as seen by
`match_candidates_with_jd`: either `pd.read_excel` raised (caught at
utils.py lines 458-460), or a data frame was read. -/
inductive ExcelSource where
  | readFailure
  | table (cols : List String) (rows : List CandidateRow)

/-- Embedding of `match_candidates_from_google_sheet` (utils.py lines
291-375): an unavailable source or an empty data frame yields `[]` (lines
307-309), a data frame whose stripped column names lack `'Skills'` yields
`[]` (lines 315-318), and otherwise the rows are scored, thresholded and
sorted.  The function's only output is the returned list. -/
def match_candidates_from_google_sheet (src : SheetSource)
    (required_skills : List String) (min_match_percentage : ℚ) :
    List MatchResult :=
  match src with
  | .unavailable => []
  | .table cols rows =>
    if rows.isEmpty then []
    else if "Skills" ∈ cols.map stripName then
      rankRows skipSheet required_skills min_match_percentage rows
    else []

/-- Embedding of `match_candidates_with_jd` (utils.py lines 381-460): a
read failure yields `[]`, a data frame whose stripped column names lack
`'Skills'` yields `[]` (lines 401-403), and otherwise the rows are scored,
thresholded and sorted.  The function's only output is the returned
list. -/
def match_candidates_with_jd (src : ExcelSource)
    (required_skills : List String) (min_match_percentage : ℚ) :
    List MatchResult :=
  match src with
  | .readFailure => []
  | .table cols rows =>
    if "Skills" ∈ cols.map stripName then
      rankRows skipExcel required_skills min_match_percentage rows
    else []

/-- The fixed `column_order` list of utils.py lines 471-476. -/
def column_order : List String :=
  ["match_percentage", "matched_skills_count", "total_required_skills",
   "name", "email", "contact", "designation", "current_company",
   "experience", "location", "qualification", "linkedin",
   "skills", "matched_skills", "cv_link", "status"]

/-- The keys of the per-candidate dictionary, in insertion order
(utils.py lines 348-365). -/
def dictKeys : List String :=
  ["name", "email", "contact", "location", "current_company",
   "designation", "experience", "linkedin", "qualification", "skills",
   "cv_link", "status", "matched_skills", "match_percentage",
   "matched_skills_count", "total_required_skills"]

/-- The columns of `pd.DataFrame(matched_candidates)` (utils.py line 468):
every result dictionary carries all sixteen keys, so the frame has all
sixteen columns as soon as the list is non-empty, and none otherwise. -/
def resultColumns (matched_candidates : List MatchResult) : List String :=
  if matched_candidates.isEmpty then [] else dictKeys

/-- The column selection and reordering step of `export_matched_candidates`
(utils.py lines 478-480):
`column_order = [col for col in column_order if col in df.columns]`.
The written spreadsheet has exactly these columns in this order. -/
def export_matched_candidates (matched_candidates : List MatchResult) :
    List String :=
  column_order.filter fun c => c ∈ resultColumns matched_candidates

/-! Bridge lemmas: the executable `mkRat`-based definitions coincide with
the textbook formulas. -/

lemma mkRat_cast (n : ℤ) (d : ℕ) : (mkRat n d : ℚ) = (n : ℚ) / (d : ℚ) := by
  rw [Rat.mkRat_eq_divInt, Rat.divInt_eq_div]
  norm_num

lemma num_eq_mul_den (x : ℚ) : (x.num : ℚ) = x * (x.den : ℚ) := by
  have hd : ((x.den : ℚ)) ≠ 0 := Nat.cast_ne_zero.mpr x.den_nz
  exact (div_eq_iff hd).mp (Rat.num_div_den x)

lemma ratFloor_eq (x : ℚ) : Rat.floor x = ⌊x⌋ := rfl

lemma rhe_nonneg {x : ℚ} (h : 0 ≤ x) : 0 ≤ rhe x := by
  have h1 : (0 : ℤ) ≤ Rat.floor x := by
    rw [ratFloor_eq]
    exact Int.le_floor.mpr (by exact_mod_cast h)
  simp only [rhe]
  split_ifs <;> omega

lemma rhe_le {x : ℚ} {B : ℤ} (h : x ≤ (B : ℚ)) : rhe x ≤ B := by
  have h1 : Rat.floor x ≤ B := by
    rw [ratFloor_eq]
    calc ⌊x⌋ ≤ ⌊(B : ℚ)⌋ := Int.floor_le_floor h
    _ = B := Int.floor_intCast B
  have h2 : (x.den : ℤ) ≤ 2 * (x.num - Rat.floor x * x.den) → Rat.floor x + 1 ≤ B := by
    intro hr
    have hdpos : (0 : ℤ) < (x.den : ℤ) := by exact_mod_cast x.den_pos
    have hnum : Rat.floor x * x.den < x.num := by nlinarith
    have hdq : (0 : ℚ) < (x.den : ℚ) := by exact_mod_cast hdpos
    have hq : ((Rat.floor x : ℤ) : ℚ) < x := by
      have hcast : ((Rat.floor x * x.den : ℤ) : ℚ) < ((x.num : ℤ) : ℚ) :=
        Int.cast_lt.mpr hnum
      rw [num_eq_mul_den x] at hcast
      push_cast at hcast
      nlinarith
    have hlt : Rat.floor x < B := by exact_mod_cast lt_of_lt_of_le hq h
    omega
  simp only [rhe]
  split_ifs with hc1 hc2 hc3
  · exact h1
  · exact h2 (le_of_lt hc2)
  · exact le_trans (by omega : Rat.floor x ≤ Rat.floor x + 1) (h2 (by omega))
  · exact h2 (by omega)

lemma round1_eq (x : ℚ) : round1 x = ((rhe (10 * x) : ℤ) : ℚ) / 10 := by
  have hd : ((x.den : ℚ)) ≠ 0 := Nat.cast_ne_zero.mpr x.den_nz
  have h10 : mkRat (10 * x.num) x.den = 10 * x := by
    rw [mkRat_cast]
    push_cast
    rw [div_eq_iff hd, num_eq_mul_den x]
    ring
  unfold round1
  rw [h10, mkRat_cast]
  norm_num

lemma round1_nonneg {x : ℚ} (h : 0 ≤ x) : 0 ≤ round1 x := by
  rw [round1_eq]
  have h1 : (0 : ℤ) ≤ rhe (10 * x) := rhe_nonneg (by positivity)
  have h2 : (0 : ℚ) ≤ ((rhe (10 * x) : ℤ) : ℚ) := by exact_mod_cast h1
  positivity

lemma round1_le_100 {x : ℚ} (h : x ≤ 100) : round1 x ≤ 100 := by
  rw [round1_eq]
  have h1 : rhe (10 * x) ≤ (1000 : ℤ) := rhe_le (by push_cast; linarith)
  rw [div_le_iff₀ (by norm_num : (0 : ℚ) < 10)]
  have h2 : ((rhe (10 * x) : ℤ) : ℚ) ≤ 1000 := by exact_mod_cast h1
  linarith

lemma rawPct_eq {m n : ℕ} (hn : n ≠ 0) :
    rawPct m n = ((m : ℚ) / (n : ℚ)) * 100 := by
  unfold rawPct
  rw [if_neg hn, mkRat_cast]
  push_cast
  ring

lemma rawPct_nonneg (m n : ℕ) : 0 ≤ rawPct m n := by
  unfold rawPct
  split_ifs with h
  · exact le_refl 0
  · rw [mkRat_cast]
    positivity

lemma rawPct_le_100 {m n : ℕ} (h : m ≤ n) : rawPct m n ≤ 100 := by
  unfold rawPct
  split_ifs with hn
  · norm_num
  · rw [mkRat_cast]
    have hnq : (0 : ℚ) < (n : ℚ) := by
      exact_mod_cast Nat.pos_of_ne_zero hn
    rw [div_le_iff₀ hnq]
    push_cast
    nlinarith [(by exact_mod_cast h : (m : ℚ) ≤ (n : ℚ))]

/-! Structural lemmas about the matching loop. -/

lemma find?_first {α : Type} (p : α → Bool) (l : List α) :
    ∀ a, l.find? p = some a →
      p a = true ∧ ∃ l₁ l₂, l = l₁ ++ a :: l₂ ∧ ∀ x ∈ l₁, p x = false := by
  induction l with
  | nil => intro a h; simp at h
  | cons b bs ih =>
    intro a h
    by_cases hpb : p b = true
    · rw [List.find?_cons_of_pos _ hpb] at h
      obtain rfl : b = a := by injection h
      exact ⟨hpb, [], bs, rfl, by simp⟩
    · rw [List.find?_cons_of_neg _ hpb] at h
      obtain ⟨hpa, l₁, l₂, hl, hall⟩ := ih a h
      refine ⟨hpa, b :: l₁, l₂, by rw [hl]; rfl, ?_⟩
      intro x hx
      rcases List.mem_cons.mp hx with rfl | hx'
      · simpa using hpb
      · exact hall x hx'

lemma mem_matchedSkills {reqLower toks : List String} {r : String} :
    r ∈ matchedSkills reqLower toks ↔
      r ∈ reqLower ∧ ∃ c ∈ toks, skillMatch r c = true := by
  simp [matchedSkills, List.mem_filter, List.find?_isSome]

lemma count_matchedSkills_le (reqLower toks : List String) (r : String) :
    (matchedSkills reqLower toks).count r ≤ reqLower.count r :=
  (List.filter_sublist _).count_le r

/-! Inversion lemmas for the row pipeline. -/

lemma processRow_eq_some {skip : String → Bool} {reqLower : List String}
    {t : ℚ} {row : CandidateRow} {m : MatchResult}
    (h : processRow skip reqLower t row = some m) :
    skip row.skills = false ∧
    t ≤ rawPct (matchedSkills reqLower (tokens row.skills)).length reqLower.length ∧
    m = mkResult row (matchedSkills reqLower (tokens row.skills))
          (rawPct (matchedSkills reqLower (tokens row.skills)).length reqLower.length)
          reqLower.length := by
  simp only [processRow] at h
  cases h1 : skip row.skills with
  | true => simp [h1] at h
  | false =>
    simp only [h1, Bool.false_eq_true, if_false] at h
    split_ifs at h with h2
    exact ⟨rfl, h2, (Option.some_inj.mp h).symm⟩

lemma mem_includedResults {skip : String → Bool} {reqLower : List String}
    {t : ℚ} {rows : List CandidateRow} {m : MatchResult} :
    m ∈ includedResults skip reqLower t rows ↔
      ∃ row ∈ rows, processRow skip reqLower t row = some m := by
  simp [includedResults, List.mem_filterMap]

lemma mem_rankRows {skip : String → Bool} {reqs : List String} {t : ℚ}
    {rows : List CandidateRow} {m : MatchResult} :
    m ∈ rankRows skip reqs t rows ↔
      m ∈ includedResults skip (requiredLower reqs) t rows := by
  unfold rankRows
  exact (List.perm_insertionSort pctGe _).mem_iff

lemma rankRows_sorted (skip : String → Bool) (reqs : List String) (t : ℚ)
    (rows : List CandidateRow) : List.Sorted pctGe (rankRows skip reqs t rows) :=
  List.sorted_insertionSort pctGe _

lemma mem_match_sheet {src : SheetSource} {reqs : List String} {t : ℚ}
    {m : MatchResult}
    (h : m ∈ match_candidates_from_google_sheet src reqs t) :
    ∃ row, processRow skipSheet (requiredLower reqs) t row = some m := by
  cases src with
  | unavailable => simp [match_candidates_from_google_sheet] at h
  | table cols rows =>
    simp only [match_candidates_from_google_sheet] at h
    split_ifs at h with h1 h2
    · simp at h
    · obtain ⟨row, _, hp⟩ := mem_includedResults.mp (mem_rankRows.mp h)
      exact ⟨row, hp⟩
    · simp at h

lemma mem_match_excel {src : ExcelSource} {reqs : List String} {t : ℚ}
    {m : MatchResult}
    (h : m ∈ match_candidates_with_jd src reqs t) :
    ∃ row, processRow skipExcel (requiredLower reqs) t row = some m := by
  cases src with
  | readFailure => simp [match_candidates_with_jd] at h
  | table cols rows =>
    simp only [match_candidates_with_jd] at h
    split_ifs at h with h1
    · obtain ⟨row, _, hp⟩ := mem_includedResults.mp (mem_rankRows.mp h)
      exact ⟨row, hp⟩
    · simp at h

lemma match_sheet_sorted (src : SheetSource) (reqs : List String) (t : ℚ) :
    List.Sorted pctGe (match_candidates_from_google_sheet src reqs t) := by
  cases src with
  | unavailable => simp [match_candidates_from_google_sheet]
  | table cols rows =>
    simp only [match_candidates_from_google_sheet]
    split_ifs <;> first
      | exact List.sorted_nil
      | exact rankRows_sorted _ _ _ _

/-! Auxiliary facts used by the claim theorems. -/

lemma containsSub_nil (l : List Char) : containsSub [] l = true := by
  cases l <;> simp [containsSub, listPrefixOf]

lemma skillMatch_empty_token (r : String) : skillMatch r "" = true := by
  simp [skillMatch, containsSub_nil]

lemma rawPct_self {n : ℕ} (hn : n ≠ 0) : rawPct n n = 100 := by
  have hq : ((n : ℚ)) ≠ 0 := Nat.cast_ne_zero.mpr hn
  rw [rawPct_eq hn, div_self hq]
  norm_num

lemma round1_hundred : round1 (100 : ℚ) = 100 := by decide

/-! Concrete inputs used by counterexamples and witnesses. -/

/-- Scenario A's candidate row: skills text
`"Python, MySQL, Docker, Communication"`. -/
def rowScenarioA : CandidateRow :=
  { skills := "Python, MySQL, Docker, Communication", name := some "A" }

/-- A row matching exactly one of three required skills. -/
def rowOneOfThree : CandidateRow := { skills := "aa", name := some "A" }

/-- A row whose single skill matches a one-skill requirement exactly. -/
def rowJava : CandidateRow := { skills := "java", name := some "J" }

/-- The result produced for `rowJava` against required skills `["Java"]`. -/
def mJava : MatchResult := mkResult rowJava ["java"] (rawPct 1 1) 1

/-- A row whose skills text matches nothing in `["python"]`. -/
def rowNoMatch : CandidateRow := { skills := "haskell", name := some "H" }

/-- A row whose skills text is just a comma, producing two empty tokens. -/
def rowComma : CandidateRow := { skills := ",", name := some "C" }

/-- Candidate B of Scenario D: matches 3 of 4 required skills. -/
def rowB75 : CandidateRow := { skills := "xx, yy, zz", name := some "B" }

/-- Candidate A of Scenario D: also matches 3 of 4 required skills. -/
def rowA75 : CandidateRow := { skills := "xx, yy, ww", name := some "A" }

/-- The result produced for `rowB75` in Scenario D. -/
def mB75 : MatchResult := mkResult rowB75 ["xx", "yy", "zz"] (rawPct 3 4) 4

/-- The result produced for `rowA75` in Scenario D. -/
def mA75 : MatchResult := mkResult rowA75 ["xx", "yy", "ww"] (rawPct 3 4) 4

/-! Claim theorems. -/

/-- C1: a required skill is in the matched list exactly when some candidate
token satisfies the bidirectional substring test against it; each required
skill contributes at most as many entries as it occurs in the required
list (so each occurrence is counted at most once); and the scan for a
required skill stops at the first token (in the given token order)
satisfying the test, every earlier token failing it. -/
theorem matched_iff_bidirectional_substring_first_token
    (reqLower : List String) (s : String) (r : String) :
    (r ∈ matchedSkills reqLower (tokens s) ↔
      r ∈ reqLower ∧ ∃ c ∈ tokens s, skillMatch r c = true) ∧
    (matchedSkills reqLower (tokens s)).count r ≤ reqLower.count r ∧
    (∀ c, ((tokens s).find? fun c0 => skillMatch r c0) = some c →
      skillMatch r c = true ∧
      ∃ l₁ l₂, tokens s = l₁ ++ c :: l₂ ∧ ∀ x ∈ l₁, skillMatch r x = false) :=
  ⟨mem_matchedSkills, count_matchedSkills_le _ _ _,
   fun c hc => find?_first _ _ c hc⟩

/-- C1 witness: with required skill `"sql"` and skills text `"mysql, sql"`,
the scan stops at the first token `"mysql"` (which satisfies the
bidirectional test), not at the exactly equal later token. -/
theorem matched_iff_bidirectional_substring_first_token_witness :
    skillMatch "sql" "mysql" = true ∧
    ∃ l₁ l₂, tokens "mysql, sql" = l₁ ++ "mysql" :: l₂ ∧
      ∀ x ∈ l₁, skillMatch "sql" x = false :=
  (matched_iff_bidirectional_substring_first_token ["sql"] "mysql, sql"
    "sql").2.2 "mysql" (by decide)

/-- C2 counterexample: on Scenario A's input the code does NOT produce
matched skills `["python", "docker"]` with percentage `66.7`: the required
skill `"sql"` is a substring of the token `"mysql"`, so it matches.  The
spec's aside "verify: sql is not a substring of mysql" is arithmetically
wrong. -/
theorem scenarioA_spec_values_wrong :
    containsSub "sql".data "mysql".data = true ∧
    ¬ (((match_candidates_from_google_sheet (.table ["Skills"] [rowScenarioA])
          ["Python", "SQL", "Docker"] 50).map MatchResult.matched_skills =
            [["python", "docker"]]) ∨
       ((match_candidates_from_google_sheet (.table ["Skills"] [rowScenarioA])
          ["Python", "SQL", "Docker"] 50).map MatchResult.match_percentage =
            [mkRat 667 10])) := by decide

/-- C2 amended: on Scenario A's input the matcher produces matched skills
`["python", "sql", "docker"]` (the required skill `"SQL"` IS matched by the
token `"mysql"`, since `"sql"` is a substring of `"mysql"`), a
match-percentage of `100.0`, and the candidate is included. -/
theorem scenarioA_actual_output :
    (match_candidates_from_google_sheet (.table ["Skills"] [rowScenarioA])
      ["Python", "SQL", "Docker"] 50).map
        (fun m => (m.name, m.matched_skills, m.match_percentage)) =
      [("A", ["python", "sql", "docker"], (100 : ℚ))] := by decide

/-- C3 counterexample: with required skills `["aa", "bb", "cc"]`, one
matching skill and threshold `33.32`, the single output entry carries
match-percentage `33.3`, which is strictly below the threshold: the filter
uses the percentage before rounding, so the claim "every entry's carried
(rounded) match-percentage ≥ threshold" is false. -/
theorem rounded_percentage_can_undershoot_threshold :
    ((match_candidates_from_google_sheet (.table ["Skills"] [rowOneOfThree])
        ["aa", "bb", "cc"] (mkRat 833 25)).map MatchResult.match_percentage =
      [mkRat 333 10]) ∧
    ¬ (mkRat 833 25 ≤ mkRat 333 10) := by decide

/-- C3 amended: every entry of the ranked output has match-percentage
computed before rounding at least the supplied threshold (the stored
rounded value can undershoot the threshold by up to 0.05), and the output
is sorted non-increasing by the stored match-percentage. -/
theorem output_thresholded_and_sorted (src : SheetSource)
    (reqs : List String) (t : ℚ) :
    (∀ m ∈ match_candidates_from_google_sheet src reqs t,
      t ≤ rawPct m.matched_skills_count m.total_required_skills) ∧
    List.Sorted pctGe (match_candidates_from_google_sheet src reqs t) := by
  refine ⟨?_, match_sheet_sorted src reqs t⟩
  intro m hm
  obtain ⟨row, hp⟩ := mem_match_sheet hm
  obtain ⟨_, hle, hm_eq⟩ := processRow_eq_some hp
  rw [hm_eq]
  simpa [mkResult] using hle

/-- C3 witness: for a concrete one-row source the single output entry's
pre-rounding percentage reaches the threshold 50. -/
theorem output_thresholded_and_sorted_witness :
    (50 : ℚ) ≤ rawPct mJava.matched_skills_count mJava.total_required_skills :=
  (output_thresholded_and_sorted (.table ["Skills"] [rowJava]) ["Java"]
    50).1 mJava (by decide)

/-- C4: every entry of either ranking variant carries a skills text (copied
verbatim from its source row) that is neither empty nor the `"nan"`
placeholder; hence a candidate record with empty or `"nan"` skills never
appears in either ranked output, for every threshold including 0. -/
theorem empty_or_nan_skills_never_ranked (gsrc : SheetSource)
    (esrc : ExcelSource) (reqs : List String) (t : ℚ) (m : MatchResult)
    (row : CandidateRow) :
    (m ∈ match_candidates_from_google_sheet gsrc reqs t →
      m.skills ≠ "" ∧ m.skills ≠ "nan") ∧
    (m ∈ match_candidates_with_jd esrc reqs t →
      m.skills ≠ "" ∧ m.skills ≠ "nan") ∧
    ((row.skills = "" ∨ row.skills = "nan") →
      processRow skipSheet (requiredLower reqs) t row = none ∧
      processRow skipExcel (requiredLower reqs) t row = none) := by
  refine ⟨?_, ?_, ?_⟩
  · intro hm
    obtain ⟨row, hp⟩ := mem_match_sheet hm
    obtain ⟨hskip, _, hm_eq⟩ := processRow_eq_some hp
    have hsk : m.skills = row.skills := by rw [hm_eq]; rfl
    rw [hsk]
    simpa [skipSheet] using hskip
  · intro hm
    obtain ⟨row, hp⟩ := mem_match_excel hm
    obtain ⟨hskip, _, hm_eq⟩ := processRow_eq_some hp
    have hsk : m.skills = row.skills := by rw [hm_eq]; rfl
    rw [hsk]
    have h2 : ¬ row.skills = "" ∧ ¬ lowerStr row.skills = "nan" := by
      simpa [skipExcel] using hskip
    refine ⟨h2.1, fun hnan => h2.2 ?_⟩
    rw [hnan]
    decide
  · intro hsk
    have h1 : skipSheet row.skills = true := by
      rcases hsk with h | h <;> rw [h] <;> decide
    have h2 : skipExcel row.skills = true := by
      rcases hsk with h | h <;> rw [h] <;> decide
    exact ⟨by simp [processRow, h1], by simp [processRow, h2]⟩

/-- C4 witness: the concrete output entry for `rowJava` indeed carries a
non-empty, non-`"nan"` skills text. -/
theorem empty_or_nan_skills_never_ranked_witness :
    (mJava.skills ≠ "" ∧ mJava.skills ≠ "nan") ∧
    processRow skipSheet (requiredLower ["Java"]) 50
      { skills := "nan" } = none :=
  ⟨(empty_or_nan_skills_never_ranked (.table ["Skills"] [rowJava])
      (.table ["Skills"] [rowJava]) ["Java"] 50 mJava
      { skills := "nan" }).1 (by decide),
   ((empty_or_nan_skills_never_ranked (.table ["Skills"] [rowJava])
      (.table ["Skills"] [rowJava]) ["Java"] 50 mJava
      { skills := "nan" }).2.2 (Or.inr rfl)).1⟩

/-- C5 counterexample: the value the ranker returns on an unreadable source
is exactly the value it returns on a readable source with zero matches (the
bare empty list); the function returns nothing else, so no structured
"source unavailable" signal distinguishable from the zero-match empty list
is delivered to the caller, contrary to the claim. -/
theorem source_failure_indistinguishable_from_zero_matches :
    match_candidates_from_google_sheet .unavailable ["python"] 50 =
      match_candidates_from_google_sheet (.table ["Skills"] [rowNoMatch])
        ["python"] 50 ∧
    match_candidates_from_google_sheet .unavailable ["python"] 50 = [] := by
  decide

/-- C5 amended: when the source cannot be read or parsed (unreadable
source, read failure, or missing `Skills` column) both ranking variants
return the bare empty result list; no additional signal is returned, so
callers cannot distinguish source failure from zero matches by the
returned value (the only difference is a printed log line). -/
theorem source_failure_returns_empty_list (reqs : List String) (t : ℚ)
    (cols : List String) (rows : List CandidateRow)
    (hcols : "Skills" ∉ cols.map stripName) :
    match_candidates_from_google_sheet .unavailable reqs t = [] ∧
    match_candidates_with_jd .readFailure reqs t = [] ∧
    match_candidates_from_google_sheet (.table cols rows) reqs t = [] ∧
    match_candidates_with_jd (.table cols rows) reqs t = [] := by
  refine ⟨rfl, rfl, ?_, ?_⟩
  · simp only [match_candidates_from_google_sheet]
    by_cases h1 : rows.isEmpty = true
    · rw [if_pos h1]
    · rw [if_neg h1, if_neg hcols]
  · simp only [match_candidates_with_jd]
    rw [if_neg hcols]

/-- C5 witness: a source whose only column is `Name` yields the empty
list. -/
theorem source_failure_returns_empty_list_witness :
    match_candidates_from_google_sheet (.table ["Name"] [rowJava])
      ["Java"] 50 = [] :=
  (source_failure_returns_empty_list ["Java"] 50 ["Name"] [rowJava]
    (by decide)).2.2.1

/-- C6: every scored candidate's stored match-percentage equals
`(matched count / total required count) * 100` rounded to one decimal
place, and when the required-skill list is empty the stored percentage is
`0` for every included candidate (no division-by-zero failure). -/
theorem match_percentage_formula (src : SheetSource) (reqs : List String)
    (t : ℚ) (m : MatchResult)
    (hm : m ∈ match_candidates_from_google_sheet src reqs t) :
    (reqs ≠ [] →
      m.match_percentage =
        round1 (((m.matched_skills_count : ℚ) /
          (m.total_required_skills : ℚ)) * 100)) ∧
    (reqs = [] → m.match_percentage = 0) := by
  obtain ⟨row, hp⟩ := mem_match_sheet hm
  obtain ⟨_, _, hm_eq⟩ := processRow_eq_some hp
  constructor
  · intro hne
    have hlen : (requiredLower reqs).length ≠ 0 := by
      simpa [requiredLower] using hne
    rw [hm_eq]
    simp only [mkResult]
    rw [rawPct_eq hlen]
  · intro he
    subst he
    rw [hm_eq]
    simp only [mkResult, requiredLower, List.map_nil, List.length_nil]
    rw [show rawPct (matchedSkills [] (tokens row.skills)).length 0 = 0 from rfl]
    decide

/-- C6 witness: the concrete stored percentage for `rowJava` equals the
rounded formula value. -/
theorem match_percentage_formula_witness :
    mJava.match_percentage =
      round1 (((mJava.matched_skills_count : ℚ) /
        (mJava.total_required_skills : ℚ)) * 100) :=
  (match_percentage_formula (.table ["Skills"] [rowJava]) ["Java"] 50 mJava
    (by decide)).1 (by decide)

/-- C7: the descending sort by stored match-percentage is stable: two
included results with equal stored percentage appear in the ranked output
in their source order (Python's `list.sort` is stable; modelled by
insertion sort, whose stability is `List.pair_sublist_insertionSort`). -/
theorem equal_percentage_preserves_source_order (reqs : List String)
    (t : ℚ) (rows : List CandidateRow) (a b : MatchResult)
    (hin : List.Sublist [a, b]
      (includedResults skipSheet (requiredLower reqs) t rows))
    (heq : a.match_percentage = b.match_percentage) :
    List.Sublist [a, b] (rankRows skipSheet reqs t rows) := by
  unfold rankRows
  exact List.pair_sublist_insertionSort (le_of_eq heq.symm) hin

/-- C7 witness, Scenario D: candidates B and A both score 75.0 and appear
in source order [B, A]; the ranked output preserves [B, A]. -/
theorem equal_percentage_preserves_source_order_witness :
    List.Sublist [mB75, mA75]
      (rankRows skipSheet ["xx", "yy", "zz", "ww"] 50 [rowB75, rowA75]) :=
  equal_percentage_preserves_source_order ["xx", "yy", "zz", "ww"] 50
    [rowB75, rowA75] mB75 mA75 (by decide) (by decide)

/-- C8: every produced result's matched-skills list contains only elements
of the normalized required-skill list, its matched count equals the length
of that list and is at most the total, the total equals the length of the
required list, and the stored percentage lies in [0, 100]. -/
theorem matchResult_invariants (src : SheetSource) (reqs : List String)
    (t : ℚ) (m : MatchResult)
    (hm : m ∈ match_candidates_from_google_sheet src reqs t) :
    (∀ x ∈ m.matched_skills, x ∈ requiredLower reqs) ∧
    m.matched_skills_count = m.matched_skills.length ∧
    m.matched_skills_count ≤ m.total_required_skills ∧
    m.total_required_skills = reqs.length ∧
    0 ≤ m.match_percentage ∧ m.match_percentage ≤ 100 := by
  obtain ⟨row, hp⟩ := mem_match_sheet hm
  obtain ⟨_, _, hm_eq⟩ := processRow_eq_some hp
  subst hm_eq
  refine ⟨?_, rfl, ?_, ?_, ?_, ?_⟩
  · intro x hx
    exact List.mem_of_mem_filter hx
  · simpa [mkResult] using
      List.length_filter_le _ (requiredLower reqs)
  · simp [mkResult, requiredLower]
  · exact round1_nonneg (rawPct_nonneg _ _)
  · exact round1_le_100 (rawPct_le_100 (List.length_filter_le _ _))

/-- C8 witness: the invariants instantiated on the concrete result for
`rowJava`. -/
theorem matchResult_invariants_witness :
    mJava.matched_skills_count ≤ mJava.total_required_skills ∧
    0 ≤ mJava.match_percentage ∧ mJava.match_percentage ≤ 100 :=
  have h := matchResult_invariants (.table ["Skills"] [rowJava]) ["Java"]
    50 mJava (by decide)
  ⟨h.2.2.1, h.2.2.2.2⟩

/-- C9: for every non-empty result list (in particular one where every
status value is the blank sentinel `"N/A"`), the exported table has exactly
the sixteen columns of `column_order`, in that fixed order; only columns
absent from the result schema are dropped, and since every result carries
all keys, nothing is dropped — the status column is present. -/
theorem export_columns_fixed_order (results : List MatchResult)
    (hne : results ≠ [])
    (_hstatus : ∀ m ∈ results, m.status = "N/A") :
    export_matched_candidates results = column_order ∧
    "status" ∈ export_matched_candidates results := by
  have hcols : resultColumns results = dictKeys := by
    unfold resultColumns
    rw [if_neg]
    simpa [List.isEmpty_iff] using hne
  have h1 : export_matched_candidates results = column_order := by
    unfold export_matched_candidates
    rw [hcols]
    decide
  exact ⟨h1, h1 ▸ (by decide : "status" ∈ column_order)⟩

/-- C9 witness: Scenario E on a concrete one-element result list with blank
status. -/
theorem export_columns_fixed_order_witness :
    export_matched_candidates [mJava] = column_order :=
  (export_columns_fixed_order [mJava] (by decide) (by decide)).1

/-- C10 (implicit): a row whose skills text survives the skip test but
yields an empty token (such as `","` or `"Python,"`) matches every
required skill — the empty string is a substring of every string — so it
scores 100.0 and is included at every threshold at most 100. -/
theorem empty_token_matches_everything (reqs : List String) (t : ℚ)
    (cols : List String) (rows : List CandidateRow) (row : CandidateRow)
    (hrow : row ∈ rows) (hcol : "Skills" ∈ cols.map stripName)
    (hempty : "" ∈ tokens row.skills)
    (hskip : skipSheet row.skills = false)
    (hreq : reqs ≠ []) (ht : t ≤ 100) :
    mkResult row (requiredLower reqs) 100 reqs.length ∈
      match_candidates_from_google_sheet (.table cols rows) reqs t ∧
    (mkResult row (requiredLower reqs) 100 reqs.length).match_percentage
      = 100 ∧
    (mkResult row (requiredLower reqs) 100 reqs.length).matched_skills
      = requiredLower reqs := by
  have hmatched :
      matchedSkills (requiredLower reqs) (tokens row.skills) =
        requiredLower reqs := by
    apply List.filter_eq_self.mpr
    intro r _
    simp only [List.find?_isSome]
    exact ⟨"", hempty, skillMatch_empty_token r⟩
  have hlen : (requiredLower reqs).length ≠ 0 := by
    simpa [requiredLower] using hreq
  have hlen2 : (requiredLower reqs).length = reqs.length := by
    simp [requiredLower]
  have hpct :
      rawPct (requiredLower reqs).length (requiredLower reqs).length =
        100 := rawPct_self hlen
  have hproc :
      processRow skipSheet (requiredLower reqs) t row =
        some (mkResult row (requiredLower reqs) 100 reqs.length) := by
    simp only [processRow, hskip, Bool.false_eq_true, if_false]
    rw [hmatched, hpct, if_pos ht, hlen2]
  have hne : rows.isEmpty = false := by
    simp [List.isEmpty_iff]
    exact List.ne_nil_of_mem hrow
  have hfun :
      match_candidates_from_google_sheet (.table cols rows) reqs t =
        rankRows skipSheet reqs t rows := by
    simp only [match_candidates_from_google_sheet, hne, Bool.false_eq_true,
      if_false]
    rw [if_pos hcol]
  refine ⟨?_, round1_hundred, rfl⟩
  rw [hfun]
  exact mem_rankRows.mpr (mem_includedResults.mpr ⟨row, hrow, hproc⟩)

/-- C10 witness: the skills text `","` scores 100.0 against
`["python", "java"]` and is included even at threshold 100. -/
theorem empty_token_matches_everything_witness :
    mkResult rowComma (requiredLower ["python", "java"]) 100 2 ∈
      match_candidates_from_google_sheet (.table ["Skills"] [rowComma])
        ["python", "java"] 100 :=
  (empty_token_matches_everything ["python", "java"] 100 ["Skills"]
    [rowComma] rowComma (by decide) (by decide) (by decide) (by decide)
    (by decide) (by decide)).1

end SkillAnalyzer
